import Mathlib

/-!
Formal model of the bulk-mail dispatch engine implemented in `src/app.py`.

The Python program is a Flask application whose core is the background batch
dispatcher `send_emails_task`, supported by `load_counter` / `save_counter`
(the durable progress cursor), `extract_name` (personalization), a CSV
recipient loader, an SMTP transport, and the HTTP entry points `start_sending`
and `get_status`.  Each Lean definition below is a direct translation of the
corresponding Python function; effects (the counter file, the CSV parse, the
SMTP connection, the per-recipient send outcomes) are supplied by an explicit
environment record, and the run produces a trace of events (log lines, send
attempts, counter persists, rate-limit sleeps) together with the final state
of the counter file.  An uncaught Python exception is modelled as the
`Except.error` branch of the run's result.

Modelling conventions, stated once here:
* Python log strings are reproduced verbatim except that the single-quote
  characters Python puts around interpolated file names are dropped.
* Values read from `config.json` are modelled with the types the application
  itself writes there (`stopper` is an `Int` because `set_stopper` only ever
  stores an `int`); a field absent from the JSON object is `none`.
* `str.format` is modelled by `parseFormat`/`renderPieces`: `\x7b\x7b` and
  `\x7d\x7d` are brace escapes, a `\x7bname\x7d` field renders the keyword
  argument `greeting` and any other field name raises `KeyError`, and
  unbalanced braces raise `ValueError`, matching CPython's behaviour on the
  template bodies this application handles.
* Reading an attachment file that exists is assumed to succeed, so the inner
  `try` of lines 205-211 of `src/app.py` never takes its `except` branch in
  the model.
-/

namespace BulkMail

/-- A JSON scalar as `load_counter` can observe it under the `counter` key:
an integer, a string, or anything else (`null`, list, float, ...). -/
inductive PyVal where
  | int (n : Int)
  | str (s : String)
  | other
deriving DecidableEq

/-- The possible states of `email_counter.json` as seen by `load_counter`
(src/app.py lines 65-74): the file may be absent, hold undecodable JSON,
decode to a non-dict (so `data.get` raises `AttributeError`), decode to a
dict without a `counter` key, or hold some value under `counter`. -/
inductive CounterFileState where
  | absent
  | badJson
  | jsonNonDict
  | dictNoCounter
  | dictCounter (v : PyVal)
deriving DecidableEq

/-- `load_counter` (src/app.py lines 65-74): returns 0 when the file is
absent or raises `json.JSONDecodeError`; reads `data.get('counter', 0)`
when the JSON decodes to a dict; raises `AttributeError` (uncaught) when
the JSON decodes to something without a `.get` method. -/
def load_counter : CounterFileState → Except String PyVal
  | .absent => .ok (.int 0)
  | .badJson => .ok (.int 0)
  | .jsonNonDict => .error "AttributeError"
  | .dictNoCounter => .ok (.int 0)
  | .dictCounter v => .ok v

/-- `save_counter` (src/app.py lines 76-79): a complete overwrite of the
counter file with the dict holding the single integer. -/
def save_counter (n : Int) : CounterFileState :=
  .dictCounter (.int n)

/-- States of the counter file on which the dispatch run neither raises in
`load_counter` nor trips over a non-integer or negative counter value. -/
def counterSafe : CounterFileState → Bool
  | .absent => true
  | .badJson => true
  | .jsonNonDict => false
  | .dictNoCounter => true
  | .dictCounter (.int n) => decide (0 ≤ n)
  | .dictCounter _ => false

/-- Per-character lower-casing, modelling Python's `str.lower` on the ASCII
column names this application handles. -/
def pyLower (s : String) : String :=
  String.mk (s.data.map Char.toLower)

/-- Substring test, modelling Python's `needle in hay`. -/
def containsSub (needle hay : String) : Bool :=
  hay.data.tails.any (fun t => needle.data.isPrefixOf t)

/-- `part.capitalize()`: first character upper-cased, the rest lower-cased. -/
def capWord (s : String) : String :=
  match s.data with
  | [] => ""
  | c :: rest => String.mk (c.toUpper :: rest.map Char.toLower)

/-- Python's `str.split()` with no argument: split on runs of spaces,
dropping empty pieces (after `re.sub` the only whitespace left is `' '`).
The second argument accumulates the current word, reversed. -/
def splitSpaces : List Char → List Char → List String
  | [], cur => if cur.isEmpty then [] else [String.mk cur.reverse]
  | c :: rest, cur =>
      if c = ' ' then
        if cur.isEmpty then splitSpaces rest []
        else String.mk cur.reverse :: splitSpaces rest []
      else splitSpaces rest (c :: cur)

/-- `' '.join(parts)`. -/
def joinSpace : List String → String
  | [] => ""
  | [s] => s
  | s :: rest => s ++ " " ++ joinSpace rest

/-- `extract_name` (src/app.py lines 117-127): local part before `@`,
non-alphabetic characters replaced by spaces, each word capitalized,
falling back to `"there"` when nothing remains. -/
def extract_name (email : String) : String :=
  let localPart := email.data.takeWhile (fun c => c ≠ '@')
  let cleaned := localPart.map (fun c => if c.isAlpha then c else ' ')
  let parts := splitSpaces cleaned []
  let name := joinSpace (parts.map capWord)
  if name = "" then "there" else name

/-- A parsed piece of a format string: a literal character or a
replacement field with its name. -/
inductive Piece where
  | lit (c : Char)
  | field (f : String)
deriving DecidableEq

/-- Brace-structure parsing of a Python format string.  The second argument
is `some acc` while inside a replacement field (`acc` holds the field name
so far, reversed), `none` otherwise.  Unbalanced or nested braces raise
`ValueError` exactly as CPython does. -/
def parseFormat : List Char → Option (List Char) → Except String (List Piece)
  | [], none => .ok []
  | [], some _ => .error "ValueError"
  | '{' :: '{' :: rest, none => (fun ps => .lit '{' :: ps) <$> parseFormat rest none
  | '}' :: '}' :: rest, none => (fun ps => .lit '}' :: ps) <$> parseFormat rest none
  | '{' :: rest, none => parseFormat rest (some [])
  | '}' :: _, none => .error "ValueError"
  | c :: rest, none => (fun ps => .lit c :: ps) <$> parseFormat rest none
  | '}' :: rest, some acc =>
      (fun ps => .field (String.mk acc.reverse) :: ps) <$> parseFormat rest none
  | '{' :: _, some _ => .error "ValueError"
  | c :: rest, some acc => parseFormat rest (c :: acc)

/-- Rendering of parsed pieces with the single keyword argument
`greeting`; any other field name raises `KeyError`, as
`template_body.format(greeting=greeting)` does on line 200. -/
def renderPieces (greeting : String) : List Piece → Except String String
  | [] => .ok ""
  | .lit c :: rest => (fun s => String.mk (c :: s.data)) <$> renderPieces greeting rest
  | .field f :: rest =>
      if f = "greeting" then (fun s => greeting ++ s) <$> renderPieces greeting rest
      else .error ("KeyError: " ++ f)

/-- `body.format(greeting=greeting)` (src/app.py line 200). -/
def pyFormat (body greeting : String) : Except String String :=
  (parseFormat body.data none).bind (renderPieces greeting)

/-- `true` when the template body parses and every replacement field is
named `greeting`, i.e. `str.format` cannot raise on it. -/
def bodyOk (body : String) : Bool :=
  match parseFormat body.data none with
  | .ok ps => ps.all (fun p => match p with | .field f => f == "greeting" | .lit _ => true)
  | .error _ => false

/-- A parsed CSV file as pandas presents it: column headers and rows of
optional cells (`none` is a missing value, dropped by `dropna`). -/
structure CsvTable where
  headers : List String
  rows : List (List (Option String))
deriving DecidableEq

/-- `next((col for col in data.columns if 'email' in col.lower()), None)`
(src/app.py line 160), returning the index of the first matching column. -/
def findEmailColumn (headers : List String) : Option Nat :=
  headers.findIdx? (fun col => containsSub "email" (pyLower col))

/-- Whitespace-trimming of one cell, modelling pandas `.str.strip()`. -/
def pyStrip (s : String) : String :=
  String.mk (((s.data.dropWhile Char.isWhitespace).reverse.dropWhile Char.isWhitespace).reverse)

/-- `data.dropna(subset=[email_column])` followed by
`data[email_column].str.strip().tolist()` (src/app.py lines 164-165). -/
def emailsOf (t : CsvTable) (idx : Nat) : List String :=
  (t.rows.filterMap (fun row => row.getD idx none)).map pyStrip

/-- The configuration dict passed to `send_emails_task` (built by
`start_sending`, lines 437-446); `none` models an absent key. -/
structure SendConfig where
  email : Option String
  password : Option String
  stopper : Option Int
  default_file : Option String
  template_name : Option String
  template_subject : Option String
  template_body : Option String
  resume_file : Option String
deriving DecidableEq

/-- Python truthiness of an optional string (`None` and `""` are falsy). -/
def truthy : Option String → Bool
  | none => false
  | some s => !(s == "")

/-- The effectful surroundings of one dispatch run: the counter file on
disk, the outcome of `pd.read_csv`, whether the SMTP connect/login
succeeds (with the exception text when it does not), whether the resume
file exists, and the outcome and exception text of each `sendmail` call. -/
structure Env where
  counterFile : CounterFileState
  csv : Except String CsvTable
  smtpOk : Bool
  smtpErrMsg : String
  resumeExists : Bool
  sendOk : Int → Bool
  sendErrMsg : Int → String

/-- One observable event of a run: an appended log line, a `sendmail`
attempt at an index (with the receiver and its outcome), a write of the
counter file, or the fixed `time.sleep(5)` pause. -/
inductive Ev where
  | log (msg : String)
  | sendAttempt (i : Int) (receiver : String) (ok : Bool)
  | persist (n : Int)
  | sleep
deriving DecidableEq

/-- The outcome of a run that did not raise: its event trace and the final
state of the counter file. -/
structure RunResult where
  trace : List Ev
  counterFile : CounterFileState
deriving DecidableEq

/-- Python list indexing `xs[i]` with an `int` index: non-negative indexing,
negative wrap-around, `IndexError` out of range. -/
def pyIndex (xs : List String) (i : Int) : Except String String :=
  if 0 ≤ i then
    if h : i.toNat < xs.length then .ok (xs.get ⟨i.toNat, h⟩) else .error "IndexError"
  else
    if (-i).toNat ≤ xs.length then .ok (xs.getD (xs.length - (-i).toNat) "")
    else .error "IndexError"

/-- Python `range(a, b)` over integers. -/
def intRange (a b : Int) : List Int :=
  (List.range (b - a).toNat).map (fun (k : Nat) => a + (k : Int))

/-- `end_counter = min(start_counter + stopper_value, len(email_list))`
(src/app.py line 172). -/
def computeEnd (start stopper : Int) (n : Nat) : Int :=
  min (start + stopper) (n : Int)

/-- The success log line of line 219. -/
def successMsg (receiver : String) (cur : Int) (total : Nat) : String :=
  "SUCCESS: Email sent to " ++ receiver ++ " (" ++ toString cur ++ "/" ++ toString total ++ ")"

/-- The per-recipient failure log line of line 223. -/
def sendErrLog (receiver : String) (detail : String) : String :=
  "ERROR sending to " ++ receiver ++ ": " ++ detail

/-- The send loop of src/app.py lines 191-224.  Each iteration indexes the
email list, builds the greeting, formats the body (an undefined placeholder
raises out of the whole task), emits the missing-attachment warning events,
then attempts the send: on success it logs, persists `i + 1` and sleeps; on
failure it logs the error and continues with the counter file unchanged. -/
def sendLoop (tbody : String) (warnEvs : List Ev) (env : Env) (emailList : List String) :
    List Int → CounterFileState → Except String (List Ev × CounterFileState)
  | [], st => .ok ([], st)
  | i :: rest, st =>
    match pyIndex emailList i with
    | .error e => .error e
    | .ok receiver =>
      match pyFormat tbody ("Hi " ++ extract_name receiver) with
      | .error e => .error e
      | .ok _body =>
        if env.sendOk i then
          match sendLoop tbody warnEvs env emailList rest (save_counter (i + 1)) with
          | .error e => .error e
          | .ok (t, fin) =>
              .ok (warnEvs ++
                   (.sendAttempt i receiver true ::
                    .log (successMsg receiver (i + 1) emailList.length) ::
                    .persist (i + 1) :: .sleep :: t), fin)
        else
          match sendLoop tbody warnEvs env emailList rest st with
          | .error e => .error e
          | .ok (t, fin) =>
              .ok (warnEvs ++
                   (.sendAttempt i receiver false ::
                    .log (sendErrLog receiver (env.sendErrMsg i)) :: t), fin)

/-- The warning events emitted per recipient when a resume file is
configured but absent on disk (src/app.py lines 212-213); empty when no
resume is configured or the file exists. -/
def warnEvsOf (cfg : SendConfig) (env : Env) : List Ev :=
  if truthy cfg.resume_file && !env.resumeExists then
    [.log ("Warning: Resume file " ++ cfg.resume_file.getD "" ++
           " not found. Sending without attachment.")]
  else []

/-- The log line of line 166. -/
def loadedMsg (n : Nat) (file : String) : String :=
  "Loaded " ++ (toString n ++ (" emails from " ++ (file ++ ".")))

/-- The log line of line 178. -/
def prepMsg (start endC : Int) : String :=
  "Preparing to send emails from index " ++ toString start ++ " to " ++ toString (endC - 1) ++ "."

/-- The four log events preceding the send loop on the path that reaches
it: started, loaded, preparing, connected. -/
def preEvents (cfg : SendConfig) (n : Nat) (start endC : Int) : List Ev :=
  [.log "Email sending process started.",
   .log (loadedMsg n (cfg.default_file.getD "")),
   .log (prepMsg start endC),
   .log "Successfully connected to Gmail SMTP server."]

/-- `send_emails_task` (src/app.py lines 131-227).  Mirrors the source
step by step: clear logs and log the start; read the config fields with
their defaults; validate `email`/`password`/`default_file` truthiness;
load the CSV and locate the email column; load the counter (its uncaught
`AttributeError`, or a `TypeError` from arithmetic on a non-integer
counter value, propagates); compute the window; stop early when
exhausted; connect to SMTP; run the send loop; close and log the end. -/
def send_emails_task (cfg : SendConfig) (env : Env) : Except String RunResult :=
  let startedEv : Ev := .log "Email sending process started."
  let stopper := cfg.stopper.getD 100
  let tbody := cfg.template_body.getD "Hi {greeting}"
  if !(truthy cfg.email && truthy cfg.password && truthy cfg.default_file) then
    .ok ⟨[startedEv, .log "ERROR: Missing credentials, stopper value, or default CSV file."],
         env.counterFile⟩
  else
    match env.csv with
    | .error e => .ok ⟨[startedEv, .log ("ERROR loading CSV file: " ++ e)], env.counterFile⟩
    | .ok table =>
      match findEmailColumn table.headers with
      | none =>
          .ok ⟨[startedEv,
                .log ("ERROR: No email column found in " ++ cfg.default_file.getD "" ++ ".")],
               env.counterFile⟩
      | some idx =>
        let emailList := emailsOf table idx
        let loadedEv : Ev := .log (loadedMsg emailList.length (cfg.default_file.getD ""))
        match load_counter env.counterFile with
        | .error e => .error e
        | .ok (.int start) =>
          let endC := computeEnd start stopper emailList.length
          if (emailList.length : Int) ≤ start then
            .ok ⟨[startedEv, loadedEv, .log "All emails have already been sent!"],
                 env.counterFile⟩
          else
            if env.smtpOk then
              match sendLoop tbody (warnEvsOf cfg env) env emailList
                      (intRange start endC) env.counterFile with
              | .error e => .error e
              | .ok (t, fin) =>
                  .ok ⟨preEvents cfg emailList.length start endC ++ t ++
                       [.log "Batch finished. SMTP server connection closed."], fin⟩
            else
              .ok ⟨[startedEv, loadedEv, .log (prepMsg start endC),
                    .log ("ERROR: Failed to connect to SMTP server. Check credentials. Details: "
                          ++ env.smtpErrMsg)],
                   env.counterFile⟩
        | .ok _ => .error "TypeError"

/-- The trace of a run that returned normally (`[]` when it raised). -/
def traceOf : Except String RunResult → List Ev
  | .ok r => r.trace
  | .error _ => []

/-- The final counter-file state of a run that returned normally. -/
def storeOf : Except String RunResult → CounterFileState
  | .ok r => r.counterFile
  | .error _ => .absent

/-- The exception a run raised, when it did. -/
def errOf : Except String RunResult → Option String
  | .ok _ => none
  | .error e => some e

/-- Recognizer for send-attempt events. -/
def isSendAttempt : Ev → Bool
  | .sendAttempt _ _ _ => true
  | _ => false

/-- Number of `sendmail` attempts recorded in a trace. -/
def sendCount (t : List Ev) : Nat :=
  (t.filter isSendAttempt).length

/-- Recognizer for the "all already sent" log event of line 175. -/
def isAlreadyEv : Ev → Bool
  | .log m => m == "All emails have already been sent!"
  | _ => false

/-- Number of "all already sent" events in a trace. -/
def alreadyCount (t : List Ev) : Nat :=
  t.countP isAlreadyEv

/-- The fields of `config.json` that `get_status` reads. -/
structure StoredConfig where
  email : Option String
  stopper : Option Int
deriving DecidableEq

/-- `get_status` (src/app.py lines 385-394): loads the config and the
counter and returns the JSON object with exactly the keys `counter`,
`stopper` (default 100) and `email` (default `""`); an uncaught exception
from `load_counter` propagates. -/
def get_status (cfg : StoredConfig) (st : CounterFileState) :
    Except String (List (String × PyVal)) :=
  match load_counter st with
  | .error e => .error e
  | .ok c =>
      .ok [("counter", c), ("stopper", .int (cfg.stopper.getD 100)),
           ("email", .str (cfg.email.getD ""))]

/-- `start_sending` (src/app.py lines 418-453): loads the config, resolves
the template, builds `send_config`, and unconditionally starts a new
`send_emails_task` daemon thread, immediately returning the success
acknowledgment.  The function consults no run-state flag and has no
rejecting or queueing code path, so it is modelled on the number of
background runs alive at trigger time: the thread begins at once,
incrementing that number, whatever its current value. -/
def start_sending (activeRuns : Nat) : (Bool × String) × Nat :=
  ((true, "Email sending process initiated."), activeRuns + 1)

/-- Modelled from the spec (claim C1, §8 "Monotonic cursor"): the length
of the initial success streak of a window of the given size starting at
`start`. -/
def specStreakLen (sendOk : Int → Bool) (start : Int) : Nat → Nat
  | 0 => 0
  | n + 1 => if sendOk start then specStreakLen sendOk (start + 1) n + 1 else 0

/-- Modelled from the spec (claim C1): the cursor the claim predicts after
a run over `[start, endC)` — `start` plus the success-streak length. -/
def specCursorAfterRun (sendOk : Int → Bool) (start endC : Int) : Int :=
  start + specStreakLen sendOk start (endC - start).toNat

/-- Traces in which every successful send attempt at index `i` is
immediately followed by its success log, the persist of `i + 1`, and the
rate-limit sleep, before anything else happens. -/
inductive PersistWF : List Ev → Prop where
  | nil : PersistWF []
  | other (e : Ev) (t : List Ev) (h : ∀ i r, e ≠ .sendAttempt i r true)
      (ht : PersistWF t) : PersistWF (e :: t)
  | block (i : Int) (r m : String) (t : List Ev) (ht : PersistWF t) :
      PersistWF (.sendAttempt i r true :: .log m :: .persist (i + 1) :: .sleep :: t)

/-! Concrete configurations and environments used to evaluate the model on
specific inputs (one family per claim). -/

/-- A complete credential/file configuration with the default template. -/
def cfgC1 : SendConfig :=
  ⟨some "me@x.com", some "pw", none, some "list.csv", none, none, none, none⟩

/-- Two recipients; the send at index 0 fails, the send at index 1 succeeds. -/
def envC1 : Env :=
  ⟨.absent, .ok ⟨["Email"], [[some "a@x.com"], [some "b@x.com"]]⟩,
   true, "", true, fun i => i == 1, fun _ => "boom"⟩

def cfgC2 : SendConfig :=
  ⟨some "me@x.com", some "pw", none, some "list.csv", none, none, none, none⟩

def envC2 : Env :=
  ⟨.absent, .ok ⟨["Email"], [[some "a@x.com"], [some "b@x.com"]]⟩,
   true, "", true, fun i => i == 1, fun _ => "boom"⟩

/-- A configuration whose template body holds a placeholder other than
`greeting`, so `str.format` raises `KeyError` on line 200. -/
def cfgC3 : SendConfig :=
  ⟨some "me@x.com", some "pw", none, some "list.csv", none, none,
   some "{name}", none⟩

def envC3 : Env :=
  ⟨.absent, .ok ⟨["Email"], [[some "a@x.com"]]⟩,
   true, "", true, fun _ => true, fun _ => ""⟩

def cfgC3w : SendConfig :=
  ⟨some "me@x.com", some "pw", none, some "list.csv", none, none, none, none⟩

def envC3w : Env :=
  ⟨.absent, .ok ⟨["Email"], [[some "a@x.com"]]⟩,
   true, "", true, fun _ => true, fun _ => ""⟩

/-- A configuration with sender, credential and file set but with no
stopper, no template fields and no attachment identifier. -/
def cfgC4 : SendConfig :=
  ⟨some "me@x.com", some "pw", none, some "list.csv", none, none, none, none⟩

def envC4 : Env :=
  ⟨.absent, .ok ⟨["Email"], [[some "a@x.com"]]⟩,
   true, "", true, fun _ => true, fun _ => ""⟩

/-- A configuration missing the password. -/
def cfgC4w : SendConfig :=
  ⟨some "me@x.com", none, some 10, some "list.csv", none, none, none, none⟩

def envC4w : Env :=
  ⟨.absent, .ok ⟨["Email"], [[some "a@x.com"]]⟩,
   true, "", true, fun _ => true, fun _ => ""⟩

def cfgC8 : SendConfig :=
  ⟨some "me@x.com", some "pw", none, some "list.csv", none, none, none, none⟩

/-- Two recipients with the counter already at 2: the campaign is exhausted. -/
def envC8 : Env :=
  ⟨.dictCounter (.int 2), .ok ⟨["Email"], [[some "a@x.com"], [some "b@x.com"]]⟩,
   true, "", true, fun _ => true, fun _ => ""⟩

def cfgC9 : SendConfig :=
  ⟨some "me@x.com", some "pw", none, some "list.csv", none, none, none, none⟩

def envC9 : Env :=
  ⟨.absent, .ok ⟨["Email"], [[some "a@x.com"]]⟩,
   true, "", true, fun _ => true, fun _ => ""⟩

def cfgC10 : StoredConfig := ⟨some "me@x.com", some 50⟩

def stC10 : CounterFileState := .dictCounter (.int 5)

/-- The index window `[start, end)` a run iterates (lines 171-172 and 191):
from the loaded counter to `min(start + stopper, len(email_list))`. -/
def windowOf (cfg : SendConfig) (table : CsvTable) (idx : Nat) (start : Int) : List Int :=
  intRange start (computeEnd start (cfg.stopper.getD 100) (emailsOf table idx).length)

/-- The result of the concrete fail-then-succeed run of `cfgC1`/`envC1`. -/
def runC1 : RunResult :=
  ⟨traceOf (send_emails_task cfgC1 envC1), storeOf (send_emails_task cfgC1 envC1)⟩

/-- The result of the concrete fail-then-succeed run of `cfgC2`/`envC2`. -/
def runC2 : RunResult :=
  ⟨traceOf (send_emails_task cfgC2 envC2), storeOf (send_emails_task cfgC2 envC2)⟩

/-! ## Helper lemmas -/

theorem sendLoop_store (tbody : String) (warnEvs : List Ev) (env : Env)
    (emailList : List String) (idxs : List Int) :
    ∀ (st : CounterFileState) (t : List Ev) (fin : CounterFileState),
      sendLoop tbody warnEvs env emailList idxs st = .ok (t, fin) →
      fin = idxs.foldl (fun s i => if env.sendOk i then save_counter (i + 1) else s) st := by
  induction idxs with
  | nil =>
      intro st t fin h
      simp [sendLoop] at h
      simp [h.2.symm]
  | cons i rest ih =>
      intro st t fin h
      cases hpi : pyIndex emailList i with
      | error e => simp [sendLoop, hpi] at h
      | ok receiver =>
        cases hpf : pyFormat tbody ("Hi " ++ extract_name receiver) with
        | error e => simp [sendLoop, hpi, hpf] at h
        | ok body =>
          cases hs : env.sendOk i with
          | true =>
              cases hrec : sendLoop tbody warnEvs env emailList rest (save_counter (i + 1)) with
              | error e => simp [sendLoop, hpi, hpf, hs, hrec] at h
              | ok p =>
                  obtain ⟨t', fin'⟩ := p
                  simp only [sendLoop, hpi, hpf, hs, if_true, hrec, Except.ok.injEq,
                    Prod.mk.injEq] at h
                  rw [List.foldl_cons]
                  simp only [hs, if_true]
                  rw [← h.2]
                  exact ih (save_counter (i + 1)) t' fin' hrec
          | false =>
              cases hrec : sendLoop tbody warnEvs env emailList rest st with
              | error e => simp [sendLoop, hpi, hpf, hs, hrec] at h
              | ok p =>
                  obtain ⟨t', fin'⟩ := p
                  simp only [sendLoop, hpi, hpf, hs, hrec, Except.ok.injEq, Prod.mk.injEq,
                    Bool.false_eq_true, if_false] at h
                  rw [List.foldl_cons]
                  have hgoal : (if env.sendOk i = true then save_counter (i + 1) else st) = st := by
                    rw [hs]; simp
                  rw [hgoal, ← h.2]
                  exact ih st t' fin' hrec

theorem foldl_save_getLast (sendOk : Int → Bool) (idxs : List Int) :
    ∀ st : CounterFileState,
      idxs.foldl (fun s i => if sendOk i then save_counter (i + 1) else s) st =
        (match (idxs.filter sendOk).getLast? with
         | some j => save_counter (j + 1)
         | none => st) := by
  induction idxs with
  | nil => intro st; simp
  | cons i rest ih =>
      intro st
      rw [List.foldl_cons]
      cases hs : sendOk i with
      | true =>
          simp only [if_true]
          rw [ih (save_counter (i + 1))]
          rw [List.filter_cons_of_pos hs]
          cases hfr : rest.filter sendOk with
          | nil => simp [hfr]
          | cons y ys =>
              rw [List.getLast?_cons_cons]
              cases hgl : (y :: ys).getLast? with
              | none =>
                  rw [List.getLast?_eq_none_iff] at hgl
                  exact absurd hgl (by simp)
              | some j => rfl
      | false =>
          rw [if_neg (show ¬(false = true) by decide)]
          have hneg : ¬(sendOk i = true) := by rw [hs]; decide
          rw [ih st, List.filter_cons_of_neg hneg]

theorem sendLoop_trace_mems (tbody : String) (warnEvs : List Ev) (env : Env)
    (emailList : List String) (idxs : List Int) :
    ∀ (st : CounterFileState) (t : List Ev) (fin : CounterFileState),
      sendLoop tbody warnEvs env emailList idxs st = .ok (t, fin) →
      ∀ i ∈ idxs, ∃ recv, pyIndex emailList i = .ok recv ∧
        Ev.sendAttempt i recv (env.sendOk i) ∈ t ∧
        (env.sendOk i = false → Ev.log (sendErrLog recv (env.sendErrMsg i)) ∈ t) := by
  induction idxs with
  | nil => intro st t fin h i hi; simp at hi
  | cons i0 rest ih =>
      intro st t fin h i hi
      cases hpi : pyIndex emailList i0 with
      | error e => simp [sendLoop, hpi] at h
      | ok receiver =>
        cases hpf : pyFormat tbody ("Hi " ++ extract_name receiver) with
        | error e => simp [sendLoop, hpi, hpf] at h
        | ok body =>
          cases hs : env.sendOk i0 with
          | true =>
              cases hrec : sendLoop tbody warnEvs env emailList rest (save_counter (i0 + 1)) with
              | error e => simp [sendLoop, hpi, hpf, hs, hrec] at h
              | ok p =>
                  obtain ⟨t', fin'⟩ := p
                  simp only [sendLoop, hpi, hpf, hs, if_true, hrec, Except.ok.injEq,
                    Prod.mk.injEq] at h
                  obtain ⟨ht, hfin⟩ := h
                  subst ht
                  rcases List.mem_cons.mp hi with rfl | hrest
                  · refine ⟨receiver, hpi, by simp [hs], ?_⟩
                    intro hc; rw [hs] at hc; exact absurd hc (by decide)
                  · obtain ⟨recv, ha, hb, hc⟩ := ih (save_counter (i0 + 1)) t' fin' hrec i hrest
                    exact ⟨recv, ha, by simp [hb], fun hf => by simp [hc hf]⟩
          | false =>
              cases hrec : sendLoop tbody warnEvs env emailList rest st with
              | error e => simp [sendLoop, hpi, hpf, hs, hrec] at h
              | ok p =>
                  obtain ⟨t', fin'⟩ := p
                  simp only [sendLoop, hpi, hpf, hs, hrec, Except.ok.injEq, Prod.mk.injEq,
                    Bool.false_eq_true, if_false] at h
                  obtain ⟨ht, hfin⟩ := h
                  subst ht
                  rcases List.mem_cons.mp hi with rfl | hrest
                  · exact ⟨receiver, hpi, by simp [hs], fun _ => by simp⟩
                  · obtain ⟨recv, ha, hb, hc⟩ := ih st t' fin' hrec i hrest
                    exact ⟨recv, ha, by simp [hb], fun hf => by simp [hc hf]⟩

/-- No event of the list is a successful send attempt. -/
def noSendTrue (t : List Ev) : Bool :=
  t.all fun e => match e with
    | .sendAttempt _ _ true => false
    | _ => true

theorem persistWF_of_noSendTrue (t : List Ev) (h : noSendTrue t = true) : PersistWF t := by
  induction t with
  | nil => exact .nil
  | cons e t ih =>
      refine .other e t ?_ (ih ?_)
      · intro i r hc
        subst hc
        simp [noSendTrue] at h
      · simp [noSendTrue, List.all_cons] at h ⊢
        exact h.2

theorem persistWF_append_front (pre t : List Ev) (hpre : noSendTrue pre = true)
    (ht : PersistWF t) : PersistWF (pre ++ t) := by
  induction pre with
  | nil => simpa
  | cons e pre ih =>
      rw [List.cons_append]
      refine .other e _ ?_ (ih ?_)
      · intro i r hc
        subst hc
        simp [noSendTrue] at hpre
      · simp [noSendTrue, List.all_cons] at hpre ⊢
        exact hpre.2

theorem persistWF_concat (t : List Ev) (e : Ev)
    (he : ∀ i r, e ≠ Ev.sendAttempt i r true) (ht : PersistWF t) :
    PersistWF (t ++ [e]) := by
  induction ht with
  | nil => exact .other e [] he .nil
  | other e' t' h ht' ih =>
      rw [List.cons_append]
      exact .other e' _ h ih
  | block i r m t' ht' ih =>
      rw [List.cons_append, List.cons_append, List.cons_append, List.cons_append]
      exact .block i r m _ ih

theorem sendLoop_wf (tbody : String) (warnEvs : List Ev) (env : Env)
    (emailList : List String) (hwarn : noSendTrue warnEvs = true) (idxs : List Int) :
    ∀ (st : CounterFileState) (t : List Ev) (fin : CounterFileState),
      sendLoop tbody warnEvs env emailList idxs st = .ok (t, fin) → PersistWF t := by
  induction idxs with
  | nil =>
      intro st t fin h
      simp [sendLoop] at h
      rw [h.1]
      exact .nil
  | cons i0 rest ih =>
      intro st t fin h
      cases hpi : pyIndex emailList i0 with
      | error e => simp [sendLoop, hpi] at h
      | ok receiver =>
        cases hpf : pyFormat tbody ("Hi " ++ extract_name receiver) with
        | error e => simp [sendLoop, hpi, hpf] at h
        | ok body =>
          cases hs : env.sendOk i0 with
          | true =>
              cases hrec : sendLoop tbody warnEvs env emailList rest (save_counter (i0 + 1)) with
              | error e => simp [sendLoop, hpi, hpf, hs, hrec] at h
              | ok p =>
                  obtain ⟨t', fin'⟩ := p
                  simp only [sendLoop, hpi, hpf, hs, if_true, hrec, Except.ok.injEq,
                    Prod.mk.injEq] at h
                  obtain ⟨ht, hfin⟩ := h
                  subst ht
                  exact persistWF_append_front _ _ hwarn
                    (.block i0 receiver _ t' (ih (save_counter (i0 + 1)) t' fin' hrec))
          | false =>
              cases hrec : sendLoop tbody warnEvs env emailList rest st with
              | error e => simp [sendLoop, hpi, hpf, hs, hrec] at h
              | ok p =>
                  obtain ⟨t', fin'⟩ := p
                  simp only [sendLoop, hpi, hpf, hs, hrec, Except.ok.injEq, Prod.mk.injEq,
                    Bool.false_eq_true, if_false] at h
                  obtain ⟨ht, hfin⟩ := h
                  subst ht
                  refine persistWF_append_front _ _ hwarn ?_
                  refine .other _ _ (fun i r hc => ?_) (.other _ _ (fun i r hc => Ev.noConfusion hc)
                    (ih st t' fin' hrec))
                  have := (Ev.sendAttempt.injEq _ _ _ _ _ _).mp hc
                  simp at this

theorem renderPieces_ok (g : String) (ps : List Piece)
    (h : (ps.all fun p => match p with | .field f => f == "greeting" | .lit _ => true) = true) :
    ∃ s, renderPieces g ps = .ok s := by
  induction ps with
  | nil => exact ⟨"", rfl⟩
  | cons p rest ih =>
      cases p with
      | lit c =>
          simp only [List.all_cons, Bool.and_eq_true] at h
          obtain ⟨s, hs⟩ := ih h.2
          exact ⟨String.mk (c :: s.data), by simp [renderPieces, hs]⟩
      | field f =>
          simp only [List.all_cons, Bool.and_eq_true, beq_iff_eq] at h
          obtain ⟨s, hs⟩ := ih h.2
          exact ⟨g ++ s, by simp [renderPieces, h.1, hs]⟩

theorem bodyOk_format (tbody : String) (h : bodyOk tbody = true) (g : String) :
    ∃ s, pyFormat tbody g = .ok s := by
  unfold bodyOk at h
  cases hp : parseFormat tbody.data none with
  | error e => rw [hp] at h; simp at h
  | ok ps =>
      simp only [hp] at h
      obtain ⟨s, hs⟩ := renderPieces_ok g ps h
      exact ⟨s, by simp [pyFormat, hp, hs, Except.bind]⟩

theorem sendLoop_ok (tbody : String) (warnEvs : List Ev) (env : Env)
    (emailList : List String) (hbody : bodyOk tbody = true) (idxs : List Int) :
    ∀ st : CounterFileState, (∀ i ∈ idxs, 0 ≤ i ∧ i.toNat < emailList.length) →
      ∃ t fin, sendLoop tbody warnEvs env emailList idxs st = .ok (t, fin) := by
  induction idxs with
  | nil => intro st _; exact ⟨[], st, rfl⟩
  | cons i0 rest ih =>
      intro st hb
      obtain ⟨h0, hlen⟩ := hb i0 (by simp)
      have hpi : pyIndex emailList i0 = .ok (emailList[i0.toNat]) := by
        unfold pyIndex
        rw [if_pos h0, dif_pos hlen]
        rfl
      obtain ⟨body, hpf⟩ :=
        bodyOk_format tbody hbody ("Hi " ++ extract_name (emailList[i0.toNat]))
      have hrest : ∀ i ∈ rest, 0 ≤ i ∧ i.toNat < emailList.length :=
        fun i hi => hb i (by simp [hi])
      cases hs : env.sendOk i0 with
      | true =>
          obtain ⟨t', fin', hrec⟩ := ih (save_counter (i0 + 1)) hrest
          exact ⟨warnEvs ++
              Ev.sendAttempt i0 (emailList[i0.toNat]) true ::
                Ev.log (successMsg (emailList[i0.toNat]) (i0 + 1) emailList.length) ::
                  Ev.persist (i0 + 1) :: Ev.sleep :: t', fin',
            by simp [sendLoop, hpi, hpf, hs, hrec]⟩
      | false =>
          obtain ⟨t', fin', hrec⟩ := ih st hrest
          exact ⟨warnEvs ++
              Ev.sendAttempt i0 (emailList[i0.toNat]) false ::
                Ev.log (sendErrLog (emailList[i0.toNat]) (env.sendErrMsg i0)) :: t', fin',
            by simp [sendLoop, hpi, hpf, hs, hrec]⟩

theorem persistWF_spec {t : List Ev} (h : PersistWF t) :
    ∀ (p : Nat) (i : Int) (r : String), t[p]? = some (.sendAttempt i r true) →
      (∃ m, t[p + 1]? = some (.log m)) ∧
      t[p + 2]? = some (.persist (i + 1)) ∧
      t[p + 3]? = some .sleep := by
  induction h with
  | nil => intro p i r hp; simp at hp
  | other e t' he ht ih =>
      intro p i r hp
      match p with
      | 0 =>
          simp at hp
          exact absurd hp (he i r)
      | p + 1 =>
          have := ih p i r (by simpa using hp)
          simpa using this
  | block i0 r0 m t' ht ih =>
      intro p i r hp
      match p with
      | 0 =>
          simp at hp
          obtain ⟨rfl, rfl⟩ := hp
          exact ⟨⟨m, by simp⟩, by simp, by simp⟩
      | 1 => simp at hp
      | 2 => simp at hp
      | 3 => simp at hp
      | p + 4 =>
          have := ih p i r (by simpa using hp)
          simpa using this

theorem warnEvsOf_noSend (cfg : SendConfig) (env : Env) :
    noSendTrue (warnEvsOf cfg env) = true := by
  unfold warnEvsOf
  split <;> rfl

theorem send_task_wf (cfg : SendConfig) (env : Env) :
    PersistWF (traceOf (send_emails_task cfg env)) := by
  cases hval : (truthy cfg.email && truthy cfg.password && truthy cfg.default_file) with
  | false =>
      simp only [send_emails_task, hval, Bool.not_false, eq_self_iff_true, if_true]
      exact persistWF_of_noSendTrue _ rfl
  | true =>
      cases hcsv : env.csv with
      | error e =>
          simp only [send_emails_task, hval, Bool.not_true, Bool.false_eq_true, if_false, hcsv]
          exact persistWF_of_noSendTrue _ rfl
      | ok table =>
        cases hcol : findEmailColumn table.headers with
        | none =>
            simp only [send_emails_task, hval, Bool.not_true, Bool.false_eq_true, if_false,
              hcsv, hcol]
            exact persistWF_of_noSendTrue _ rfl
        | some idx =>
          cases hctr : load_counter env.counterFile with
          | error e =>
              simp only [send_emails_task, hval, Bool.not_true, Bool.false_eq_true, if_false,
                hcsv, hcol, hctr]
              exact .nil
          | ok v =>
            cases v with
            | str s =>
                simp only [send_emails_task, hval, Bool.not_true, Bool.false_eq_true, if_false,
                  hcsv, hcol, hctr]
                exact .nil
            | other =>
                simp only [send_emails_task, hval, Bool.not_true, Bool.false_eq_true, if_false,
                  hcsv, hcol, hctr]
                exact .nil
            | int start =>
              by_cases hlen : ((emailsOf table idx).length : Int) ≤ start
              · simp only [send_emails_task, hval, Bool.not_true, Bool.false_eq_true, if_false,
                  hcsv, hcol, hctr, if_pos hlen]
                exact persistWF_of_noSendTrue _ rfl
              · cases hsm : env.smtpOk with
                | false =>
                    simp only [send_emails_task, hval, Bool.not_true, Bool.false_eq_true,
                      if_false, hcsv, hcol, hctr, if_neg hlen, hsm]
                    exact persistWF_of_noSendTrue _ rfl
                | true =>
                    simp only [send_emails_task, hval, Bool.not_true, Bool.false_eq_true,
                      if_false, hcsv, hcol, hctr, if_neg hlen, hsm, eq_self_iff_true, if_true]
                    cases hloop : sendLoop (cfg.template_body.getD "Hi {greeting}")
                        (warnEvsOf cfg env) env (emailsOf table idx)
                        (intRange start
                          (computeEnd start (cfg.stopper.getD 100) (emailsOf table idx).length))
                        env.counterFile with
                    | error e =>
                        simp only [hloop]
                        exact .nil
                    | ok p =>
                        obtain ⟨t, fin⟩ := p
                        simp only [hloop]
                        exact persistWF_concat _ _ (fun i r hc => Ev.noConfusion hc)
                          (persistWF_append_front _ _ rfl
                            (sendLoop_wf _ _ env _ (warnEvsOf_noSend cfg env) _
                              env.counterFile t fin hloop))

theorem send_task_loop_eq (cfg : SendConfig) (env : Env) (table : CsvTable) (idx : Nat)
    (start : Int)
    (h1 : (truthy cfg.email && truthy cfg.password && truthy cfg.default_file) = true)
    (h2 : env.csv = .ok table)
    (h3 : findEmailColumn table.headers = some idx)
    (h4 : load_counter env.counterFile = .ok (.int start))
    (h5 : ¬ ((emailsOf table idx).length : Int) ≤ start)
    (h6 : env.smtpOk = true) :
    send_emails_task cfg env =
      (match sendLoop (cfg.template_body.getD "Hi {greeting}") (warnEvsOf cfg env) env
               (emailsOf table idx)
               (intRange start
                 (computeEnd start (cfg.stopper.getD 100) (emailsOf table idx).length))
               env.counterFile with
       | .error e => .error e
       | .ok (t, fin) =>
           .ok ⟨preEvents cfg (emailsOf table idx).length start
                  (computeEnd start (cfg.stopper.getD 100) (emailsOf table idx).length) ++ t ++
                [.log "Batch finished. SMTP server connection closed."], fin⟩) := by
  simp only [send_emails_task, h1, Bool.not_true, Bool.false_eq_true, if_false, h2, h3, h4,
    if_neg h5, h6, eq_self_iff_true, if_true]

theorem getLast_pairwise_max {l : List Int} (hp : List.Pairwise (· < ·) l) :
    ∀ j, l.getLast? = some j → ∀ k ∈ l, k ≤ j := by
  induction l with
  | nil => intro j hj; simp at hj
  | cons x xs ih =>
      intro j hj k hk
      cases xs with
      | nil =>
          simp at hj hk
          omega
      | cons y ys =>
          rw [List.getLast?_cons_cons] at hj
          have hj_mem : j ∈ y :: ys := List.mem_of_mem_getLast? (by rw [hj]; rfl)
          rcases List.mem_cons.mp hk with rfl | hk2
          · have := (List.pairwise_cons.mp hp).1 j hj_mem
            omega
          · exact ih (List.pairwise_cons.mp hp).2 j hj k hk2

theorem mem_intRange {a b i : Int} : i ∈ intRange a b ↔ a ≤ i ∧ i < b := by
  constructor
  · intro h
    unfold intRange at h
    obtain ⟨k, hk, hik⟩ := List.mem_map.mp h
    have hk2 := List.mem_range.mp hk
    omega
  · intro h
    unfold intRange
    refine List.mem_map.mpr ⟨(i - a).toNat, List.mem_range.mpr (by omega), by omega⟩

theorem intRange_pairwise (a b : Int) : List.Pairwise (· < ·) (intRange a b) := by
  unfold intRange
  rw [List.pairwise_map]
  refine (List.pairwise_lt_range _).imp ?_
  intro x y h
  dsimp only
  omega

theorem send_task_store_eq (cfg : SendConfig) (env : Env) (table : CsvTable) (idx : Nat)
    (start : Int) (r : RunResult)
    (h1 : (truthy cfg.email && truthy cfg.password && truthy cfg.default_file) = true)
    (h2 : env.csv = .ok table)
    (h3 : findEmailColumn table.headers = some idx)
    (h4 : load_counter env.counterFile = .ok (.int start))
    (h5 : ¬ ((emailsOf table idx).length : Int) ≤ start)
    (h6 : env.smtpOk = true)
    (hrun : send_emails_task cfg env = .ok r) :
    r.counterFile =
      (match ((windowOf cfg table idx start).filter env.sendOk).getLast? with
       | some j => save_counter (j + 1)
       | none => env.counterFile) := by
  rw [send_task_loop_eq cfg env table idx start h1 h2 h3 h4 h5 h6] at hrun
  cases hloop : sendLoop (cfg.template_body.getD "Hi {greeting}") (warnEvsOf cfg env) env
      (emailsOf table idx)
      (intRange start (computeEnd start (cfg.stopper.getD 100) (emailsOf table idx).length))
      env.counterFile with
  | error e => rw [hloop] at hrun; exact absurd hrun (by simp)
  | ok p =>
      obtain ⟨t, fin⟩ := p
      rw [hloop] at hrun
      simp only [Except.ok.injEq] at hrun
      rw [← hrun]
      have hst := sendLoop_store _ _ env _ _ env.counterFile t fin hloop
      rw [foldl_save_getLast] at hst
      exact hst

theorem send_task_mems (cfg : SendConfig) (env : Env) (table : CsvTable) (idx : Nat)
    (start : Int) (r : RunResult)
    (h1 : (truthy cfg.email && truthy cfg.password && truthy cfg.default_file) = true)
    (h2 : env.csv = .ok table)
    (h3 : findEmailColumn table.headers = some idx)
    (h4 : load_counter env.counterFile = .ok (.int start))
    (h5 : ¬ ((emailsOf table idx).length : Int) ≤ start)
    (h6 : env.smtpOk = true)
    (hrun : send_emails_task cfg env = .ok r) :
    ∀ i ∈ windowOf cfg table idx start, ∃ recv,
      pyIndex (emailsOf table idx) i = .ok recv ∧
      Ev.sendAttempt i recv (env.sendOk i) ∈ r.trace ∧
      (env.sendOk i = false → Ev.log (sendErrLog recv (env.sendErrMsg i)) ∈ r.trace) := by
  rw [send_task_loop_eq cfg env table idx start h1 h2 h3 h4 h5 h6] at hrun
  cases hloop : sendLoop (cfg.template_body.getD "Hi {greeting}") (warnEvsOf cfg env) env
      (emailsOf table idx)
      (intRange start (computeEnd start (cfg.stopper.getD 100) (emailsOf table idx).length))
      env.counterFile with
  | error e => rw [hloop] at hrun; exact absurd hrun (by simp)
  | ok p =>
      obtain ⟨t, fin⟩ := p
      rw [hloop] at hrun
      simp only [Except.ok.injEq] at hrun
      intro i hi
      obtain ⟨recv, ha, hb, hc⟩ :=
        sendLoop_trace_mems _ _ env _ _ env.counterFile t fin hloop i hi
      refine ⟨recv, ha, ?_, ?_⟩
      · rw [← hrun]
        simp [hb]
      · intro hf
        rw [← hrun]
        simp [hc hf]

/-! ## Claim theorems -/

/-- C7: in every run that reaches the window computation the window end is
`computeEnd start stopper len = min(start + stopper, len)` (src/app.py line
172), so `end - start ≤ stopper` and `end ≤ len` always hold. -/
theorem c7_window_bound (start stopper : Int) (n : Nat) :
    computeEnd start stopper n = min (start + stopper) (n : Int) ∧
    computeEnd start stopper n - start ≤ stopper ∧
    computeEnd start stopper n ≤ (n : Int) := by
  refine ⟨rfl, ?_, ?_⟩ <;> · unfold computeEnd; omega

/-- C6 counterexample: a counter file whose content is decodable JSON but
not an object makes `load_counter` raise `AttributeError` rather than
return 0, and a stored non-integer counter value is returned as is, so the
load operation neither always returns an integer nor never fails. -/
theorem c6_counterexample :
    load_counter .jsonNonDict = .error "AttributeError" ∧
    load_counter (.dictCounter (.str "abc")) = .ok (.str "abc") :=
  ⟨rfl, rfl⟩

/-- C6 (amended): `load_counter` returns integer 0 when the counter file is
absent, when its content is undecodable JSON, and when the decoded object
lacks the counter key; it returns the stored counter value unchanged (an
integer exactly when an integer was stored); and it raises only when the
content decodes to a non-object. -/
theorem c6_load_counter_amended :
    load_counter .absent = .ok (.int 0) ∧
    load_counter .badJson = .ok (.int 0) ∧
    load_counter .dictNoCounter = .ok (.int 0) ∧
    (∀ v : PyVal, load_counter (.dictCounter v) = .ok v) ∧
    load_counter .jsonNonDict = .error "AttributeError" :=
  ⟨rfl, rfl, rfl, fun _ => rfl, rfl⟩

/-- C5 counterexample: triggered while one run is already active,
`start_sending` still acknowledges success and starts a second concurrent
run (two runs then race the cursor) instead of failing or queueing. -/
theorem c5_counterexample :
    (start_sending 1).1.1 = true ∧ (start_sending 1).2 = 2 :=
  ⟨rfl, rfl⟩

/-- C5 (amended): `start_sending` consults no run-state flag: whatever the
number of already-active runs, it acknowledges success and immediately
starts one more concurrent `send_emails_task` thread, so at-most-one-run
exclusivity is not enforced at trigger time. -/
theorem c5_start_sending_amended (n : Nat) :
    start_sending n = ((true, "Email sending process initiated."), n + 1) :=
  rfl

/-- C10 counterexample: for a concrete stored config and counter the status
response carries exactly the keys counter, stopper and email; there is no
field reporting the recipient-list length (the spec's totalRecipients), and
a sender-address field is present instead. -/
theorem c10_counterexample :
    get_status cfgC10 stC10 =
      .ok [("counter", .int 5), ("stopper", .int 50), ("email", .str "me@x.com")] ∧
    ((get_status cfgC10 stC10).toOption.getD []).map Prod.fst =
      ["counter", "stopper", "email"] ∧
    "totalRecipients" ∉ ((get_status cfgC10 stC10).toOption.getD []).map Prod.fst := by
  refine ⟨rfl, rfl, by decide⟩

/-- C10 (amended): whenever `load_counter` returns a value, `get_status`
returns exactly the fields counter (that persisted cursor value), stopper
(the configured batch limit, default 100) and email (the configured sender
address, default empty); no recipient-count field is included. -/
theorem c10_get_status_amended (cfg : StoredConfig) (st : CounterFileState) (c : PyVal)
    (h : load_counter st = .ok c) :
    get_status cfg st =
      .ok [("counter", c), ("stopper", .int (cfg.stopper.getD 100)),
           ("email", .str (cfg.email.getD ""))] := by
  unfold get_status
  rw [h]

theorem c10_witness :
    load_counter stC10 = .ok (.int 5) ∧
    get_status cfgC10 stC10 =
      .ok [("counter", .int 5), ("stopper", .int 50), ("email", .str "me@x.com")] :=
  ⟨rfl, c10_get_status_amended cfgC10 stC10 (.int 5) rfl⟩

/-- C4 counterexample: with only sender address, credential and file id
configured — batch limit, template fields and attachment id all absent —
the run does not fail its precondition check: it proceeds and touches
recipient 0, so completeness of every DispatchConfig field is not required. -/
theorem c4_counterexample :
    cfgC4.stopper = none ∧ cfgC4.template_body = none ∧ cfgC4.resume_file = none ∧
    errOf (send_emails_task cfgC4 envC4) = none ∧
    Ev.sendAttempt 0 "a@x.com" true ∈ traceOf (send_emails_task cfgC4 envC4) := by
  refine ⟨rfl, rfl, rfl, by decide, by decide⟩

/-- C4 (amended): the precondition check of line 148 requires only the
sender address, the credential and the recipient-file id to be present and
non-empty; when any of those is missing the run emits the error event right
after the started event and stops — no recipient is touched and the counter
file is unchanged.  The batch limit, template and attachment fields are
optional and get defaults. -/
theorem c4_precondition_amended (cfg : SendConfig) (env : Env)
    (h : (truthy cfg.email && truthy cfg.password && truthy cfg.default_file) = false) :
    send_emails_task cfg env =
      .ok ⟨[.log "Email sending process started.",
            .log "ERROR: Missing credentials, stopper value, or default CSV file."],
           env.counterFile⟩ := by
  simp only [send_emails_task, h, Bool.not_false, eq_self_iff_true, if_true]

theorem c4_witness :
    (truthy cfgC4w.email && truthy cfgC4w.password && truthy cfgC4w.default_file) = false ∧
    send_emails_task cfgC4w envC4w =
      .ok ⟨[.log "Email sending process started.",
            .log "ERROR: Missing credentials, stopper value, or default CSV file."],
           envC4w.counterFile⟩ :=
  ⟨rfl, c4_precondition_amended cfgC4w envC4w rfl⟩

theorem loadedMsg_ne_already (n : Nat) (f : String) :
    (loadedMsg n f == "All emails have already been sent!") = false := by
  rw [beq_eq_false_iff_ne]
  unfold loadedMsg
  intro hc
  have hd := congrArg String.data hc
  rw [String.data_append] at hd
  rw [show ("Loaded ".data) = ['L', 'o', 'a', 'd', 'e', 'd', ' '] from rfl] at hd
  rw [show ("All emails have already been sent!".data) =
        'A' :: "ll emails have already been sent!".data from rfl] at hd
  simp at hd

/-- C8: when the loaded cursor is at least the recipient-list length (the
config valid, the CSV loadable), the run stops at line 175: it performs
zero sends, emits exactly one "already sent" event, and leaves the counter
file unchanged — repeated triggering of an exhausted campaign is
idempotent. -/
theorem c8_idempotent_exhaustion (cfg : SendConfig) (env : Env) (table : CsvTable)
    (idx : Nat) (start : Int)
    (h1 : (truthy cfg.email && truthy cfg.password && truthy cfg.default_file) = true)
    (h2 : env.csv = .ok table)
    (h3 : findEmailColumn table.headers = some idx)
    (h4 : load_counter env.counterFile = .ok (.int start))
    (h5 : ((emailsOf table idx).length : Int) ≤ start) :
    send_emails_task cfg env =
      .ok ⟨[.log "Email sending process started.",
            .log (loadedMsg (emailsOf table idx).length (cfg.default_file.getD "")),
            .log "All emails have already been sent!"], env.counterFile⟩ ∧
    sendCount (traceOf (send_emails_task cfg env)) = 0 ∧
    alreadyCount (traceOf (send_emails_task cfg env)) = 1 ∧
    storeOf (send_emails_task cfg env) = env.counterFile := by
  have heq : send_emails_task cfg env =
      .ok ⟨[.log "Email sending process started.",
            .log (loadedMsg (emailsOf table idx).length (cfg.default_file.getD "")),
            .log "All emails have already been sent!"], env.counterFile⟩ := by
    simp only [send_emails_task, h1, Bool.not_true, Bool.false_eq_true, if_false, h2, h3, h4,
      if_pos h5]
  refine ⟨heq, ?_, ?_, ?_⟩
  · rw [heq]; rfl
  · rw [heq]
    simp [traceOf, alreadyCount, List.countP_cons, isAlreadyEv, loadedMsg_ne_already]
  · rw [heq]; rfl

theorem c8_witness :
    load_counter envC8.counterFile = .ok (.int 2) ∧
    sendCount (traceOf (send_emails_task cfgC8 envC8)) = 0 ∧
    alreadyCount (traceOf (send_emails_task cfgC8 envC8)) = 1 ∧
    storeOf (send_emails_task cfgC8 envC8) = envC8.counterFile := by
  have h := c8_idempotent_exhaustion cfgC8 envC8
    ⟨["Email"], [[some "a@x.com"], [some "b@x.com"]]⟩ 0 2 rfl rfl (by decide) rfl (by decide)
  exact ⟨rfl, h.2.1, h.2.2.1, h.2.2.2⟩

theorem counterSafe_load (st : CounterFileState) (h : counterSafe st = true) :
    ∃ n : Int, 0 ≤ n ∧ load_counter st = .ok (.int n) := by
  cases st with
  | absent => exact ⟨0, by decide, rfl⟩
  | badJson => exact ⟨0, by decide, rfl⟩
  | jsonNonDict => simp [counterSafe] at h
  | dictNoCounter => exact ⟨0, by decide, rfl⟩
  | dictCounter v =>
      cases v with
      | int n => exact ⟨n, by simpa [counterSafe] using h, rfl⟩
      | str s => simp [counterSafe] at h
      | other => simp [counterSafe] at h

/-- C3 counterexample: a template body whose single placeholder is not
named greeting makes the run raise `KeyError` out of `send_emails_task` —
the `str.format` call on line 200 sits outside every `try`, so this
failure is not turned into a terminal log event. -/
theorem c3_counterexample :
    errOf (send_emails_task cfgC3 envC3) = some "KeyError: name" := by decide

/-- C3 (amended): provided every placeholder of the resolved template body
is named greeting and the stored counter is a non-negative integer (or a
state `load_counter` reads as 0), `send_emails_task` never raises: it
returns normally with a trace ending in a terminal log event.  An
undefined placeholder in the template body (and likewise a hand-corrupted
counter file) instead escapes the task as an uncaught exception. -/
theorem c3_no_raise_amended (cfg : SendConfig) (env : Env)
    (hbody : bodyOk (cfg.template_body.getD "Hi {greeting}") = true)
    (hctr : counterSafe env.counterFile = true) :
    ∃ r, send_emails_task cfg env = .ok r ∧ ∃ m, r.trace.getLast? = some (.log m) := by
  obtain ⟨start, hstart, h4⟩ := counterSafe_load env.counterFile hctr
  cases hval : (truthy cfg.email && truthy cfg.password && truthy cfg.default_file) with
  | false =>
      refine ⟨⟨[.log "Email sending process started.",
                .log "ERROR: Missing credentials, stopper value, or default CSV file."],
               env.counterFile⟩, ?_, "ERROR: Missing credentials, stopper value, or default CSV file.", rfl⟩
      simp only [send_emails_task, hval, Bool.not_false, eq_self_iff_true, if_true]
  | true =>
      cases hcsv : env.csv with
      | error e =>
          refine ⟨⟨[.log "Email sending process started.",
                    .log ("ERROR loading CSV file: " ++ e)], env.counterFile⟩, ?_,
                  "ERROR loading CSV file: " ++ e, rfl⟩
          simp only [send_emails_task, hval, Bool.not_true, Bool.false_eq_true, if_false, hcsv]
      | ok table =>
        cases hcol : findEmailColumn table.headers with
        | none =>
            refine ⟨⟨[.log "Email sending process started.",
                      .log ("ERROR: No email column found in " ++ cfg.default_file.getD "" ++ ".")],
                     env.counterFile⟩, ?_,
                    "ERROR: No email column found in " ++ cfg.default_file.getD "" ++ ".", rfl⟩
            simp only [send_emails_task, hval, Bool.not_true, Bool.false_eq_true, if_false,
              hcsv, hcol]
        | some idx =>
          by_cases hlen : ((emailsOf table idx).length : Int) ≤ start
          · refine ⟨⟨[.log "Email sending process started.",
                      .log (loadedMsg (emailsOf table idx).length (cfg.default_file.getD "")),
                      .log "All emails have already been sent!"], env.counterFile⟩, ?_,
                    "All emails have already been sent!", rfl⟩
            simp only [send_emails_task, hval, Bool.not_true, Bool.false_eq_true, if_false,
              hcsv, hcol, h4, if_pos hlen]
          · cases hsm : env.smtpOk with
            | false =>
                refine ⟨⟨[.log "Email sending process started.",
                          .log (loadedMsg (emailsOf table idx).length (cfg.default_file.getD "")),
                          .log (prepMsg start
                            (computeEnd start (cfg.stopper.getD 100) (emailsOf table idx).length)),
                          .log ("ERROR: Failed to connect to SMTP server. Check credentials. Details: "
                                ++ env.smtpErrMsg)], env.counterFile⟩, ?_,
                        "ERROR: Failed to connect to SMTP server. Check credentials. Details: "
                          ++ env.smtpErrMsg, rfl⟩
                simp only [send_emails_task, hval, Bool.not_true, Bool.false_eq_true, if_false,
                  hcsv, hcol, h4, if_neg hlen, hsm]
            | true =>
                have hbounds : ∀ i ∈ intRange start
                    (computeEnd start (cfg.stopper.getD 100) (emailsOf table idx).length),
                    0 ≤ i ∧ i.toNat < (emailsOf table idx).length := by
                  intro i hi
                  obtain ⟨hlo, hhi⟩ := mem_intRange.mp hi
                  have hend : computeEnd start (cfg.stopper.getD 100)
                      (emailsOf table idx).length ≤ ((emailsOf table idx).length : Int) := by
                    unfold computeEnd; omega
                  omega
                obtain ⟨t, fin, hloop⟩ := sendLoop_ok (cfg.template_body.getD "Hi {greeting}")
                  (warnEvsOf cfg env) env (emailsOf table idx) hbody _ env.counterFile hbounds
                refine ⟨⟨preEvents cfg (emailsOf table idx).length start
                          (computeEnd start (cfg.stopper.getD 100) (emailsOf table idx).length)
                          ++ t ++ [.log "Batch finished. SMTP server connection closed."], fin⟩,
                        ?_, "Batch finished. SMTP server connection closed.", ?_⟩
                · rw [send_task_loop_eq cfg env table idx start hval hcsv hcol h4 hlen hsm, hloop]
                · exact List.getLast?_concat _

theorem c3_witness :
    bodyOk (cfgC3w.template_body.getD "Hi {greeting}") = true ∧
    counterSafe envC3w.counterFile = true ∧
    (send_emails_task cfgC3w envC3w).isOk = true := by
  refine ⟨by decide, by decide, ?_⟩
  obtain ⟨r, hr, _⟩ := c3_no_raise_amended cfgC3w envC3w (by decide) (by decide)
  rw [hr]
  rfl

/-- C9: in any run, a successful send attempt at index i sitting at trace
position p is immediately followed by its success log at p+1, the persist
of cursor i+1 at p+2 (a complete overwrite of the counter file, by
`save_counter`), and the rate-limit sleep at p+3; consequently the persist
happens before the inter-message delay and before any later send attempt,
so cursor persistence is never batched. -/
theorem c9_persist_immediately (cfg : SendConfig) (env : Env) (p : Nat) (i : Int) (r : String)
    (hp : (traceOf (send_emails_task cfg env))[p]? = some (.sendAttempt i r true)) :
    (∃ m, (traceOf (send_emails_task cfg env))[p + 1]? = some (.log m)) ∧
    (traceOf (send_emails_task cfg env))[p + 2]? = some (.persist (i + 1)) ∧
    (traceOf (send_emails_task cfg env))[p + 3]? = some .sleep ∧
    (∀ (q : Nat) (j : Int) (r2 : String) (b : Bool),
       (traceOf (send_emails_task cfg env))[q]? = some (.sendAttempt j r2 b) →
       q ≤ p ∨ p + 4 ≤ q) := by
  have h := persistWF_spec (send_task_wf cfg env) p i r hp
  refine ⟨h.1, h.2.1, h.2.2, ?_⟩
  intro q j r2 b hq
  by_contra hcon
  push_neg at hcon
  obtain ⟨hq1, hq2⟩ := hcon
  have : q = p + 1 ∨ q = p + 2 ∨ q = p + 3 := by omega
  rcases this with rfl | rfl | rfl
  · obtain ⟨m, hm⟩ := h.1
    rw [hm] at hq
    simp at hq
  · rw [h.2.1] at hq
    simp at hq
  · rw [h.2.2] at hq
    simp at hq

theorem c9_witness :
    (traceOf (send_emails_task cfgC9 envC9))[4]? = some (.sendAttempt 0 "a@x.com" true) ∧
    (traceOf (send_emails_task cfgC9 envC9))[6]? = some (.persist 1) ∧
    (traceOf (send_emails_task cfgC9 envC9))[7]? = some .sleep := by
  refine ⟨by decide, ?_, ?_⟩
  · exact (c9_persist_immediately cfgC9 envC9 4 0 "a@x.com" (by decide)).2.1
  · exact (c9_persist_immediately cfgC9 envC9 4 0 "a@x.com" (by decide)).2.2.1

/-- C1 counterexample: over the window [0, 2) with a send failure at index
0 and a success at index 1, the run returns normally and persists cursor 2,
while the claim predicts cursor start + success-streak = 0 (never past the
failed index 0); the failed recipient is therefore skipped, not retried. -/
theorem c1_counterexample :
    errOf (send_emails_task cfgC1 envC1) = none ∧
    storeOf (send_emails_task cfgC1 envC1) = save_counter 2 ∧
    specCursorAfterRun envC1.sendOk 0 2 = 0 ∧
    save_counter 2 ≠ save_counter (specCursorAfterRun envC1.sendOk 0 2) := by
  refine ⟨by decide, by decide, by decide, by decide⟩

/-- C1 (amended): when `sendOne` fails at index i the run emits an error
event naming that recipient and continues to index i+1 (every window index
is attempted); however the cursor is not held at the failed index: after
the run the persisted counter file is the overwrite with (last successful
window index) + 1, and is unchanged only when no send in the window
succeeded — so a failed recipient is retried on the next run only if no
later send of the same window succeeded. -/
theorem c1_failure_continue_amended (cfg : SendConfig) (env : Env) (table : CsvTable)
    (idx : Nat) (start : Int) (r : RunResult)
    (h1 : (truthy cfg.email && truthy cfg.password && truthy cfg.default_file) = true)
    (h2 : env.csv = .ok table)
    (h3 : findEmailColumn table.headers = some idx)
    (h4 : load_counter env.counterFile = .ok (.int start))
    (h5 : ¬ ((emailsOf table idx).length : Int) ≤ start)
    (h6 : env.smtpOk = true)
    (hrun : send_emails_task cfg env = .ok r) :
    (∀ i ∈ windowOf cfg table idx start, env.sendOk i = false →
       ∃ recv, pyIndex (emailsOf table idx) i = .ok recv ∧
         Ev.log (sendErrLog recv (env.sendErrMsg i)) ∈ r.trace) ∧
    (∀ i ∈ windowOf cfg table idx start,
       ∃ recv, Ev.sendAttempt i recv (env.sendOk i) ∈ r.trace) ∧
    r.counterFile =
      (match ((windowOf cfg table idx start).filter env.sendOk).getLast? with
       | some j => save_counter (j + 1)
       | none => env.counterFile) := by
  refine ⟨?_, ?_, send_task_store_eq cfg env table idx start r h1 h2 h3 h4 h5 h6 hrun⟩
  · intro i hi hf
    obtain ⟨recv, ha, hb, hc⟩ :=
      send_task_mems cfg env table idx start r h1 h2 h3 h4 h5 h6 hrun i hi
    exact ⟨recv, ha, hc hf⟩
  · intro i hi
    obtain ⟨recv, ha, hb, hc⟩ :=
      send_task_mems cfg env table idx start r h1 h2 h3 h4 h5 h6 hrun i hi
    exact ⟨recv, hb⟩

theorem c1_witness :
    send_emails_task cfgC1 envC1 = .ok runC1 ∧
    envC1.sendOk 0 = false ∧
    runC1.counterFile = save_counter 2 := by
  refine ⟨rfl, rfl, ?_⟩
  have h := c1_failure_continue_amended cfgC1 envC1
    ⟨["Email"], [[some "a@x.com"], [some "b@x.com"]]⟩ 0 0 runC1
    rfl rfl (by decide) rfl (by decide) rfl rfl
  rw [h.2.2]
  decide

/-- C2: after a completed run over the window, the persisted counter file
is the overwrite with j+1 where j is the largest window index whose send
succeeded, and is unchanged (still reading start) when no send in the
window succeeded; in particular a failure at i followed by a success at
i+1 persists i+2, permanently skipping recipient i. -/
theorem c2_cursor_last_success (cfg : SendConfig) (env : Env) (table : CsvTable)
    (idx : Nat) (start : Int) (r : RunResult)
    (h1 : (truthy cfg.email && truthy cfg.password && truthy cfg.default_file) = true)
    (h2 : env.csv = .ok table)
    (h3 : findEmailColumn table.headers = some idx)
    (h4 : load_counter env.counterFile = .ok (.int start))
    (h5 : ¬ ((emailsOf table idx).length : Int) ≤ start)
    (h6 : env.smtpOk = true)
    (hrun : send_emails_task cfg env = .ok r) :
    r.counterFile =
      (match ((windowOf cfg table idx start).filter env.sendOk).getLast? with
       | some j => save_counter (j + 1)
       | none => env.counterFile) ∧
    (∀ j, ((windowOf cfg table idx start).filter env.sendOk).getLast? = some j →
       j ∈ windowOf cfg table idx start ∧ env.sendOk j = true ∧
       ∀ k ∈ windowOf cfg table idx start, env.sendOk k = true → k ≤ j) ∧
    (((windowOf cfg table idx start).filter env.sendOk).getLast? = none →
       ∀ k ∈ windowOf cfg table idx start, env.sendOk k = false) := by
  refine ⟨send_task_store_eq cfg env table idx start r h1 h2 h3 h4 h5 h6 hrun, ?_, ?_⟩
  · intro j hj
    have hjf : j ∈ (windowOf cfg table idx start).filter env.sendOk :=
      List.mem_of_mem_getLast? (by rw [hj]; rfl)
    obtain ⟨hjw, hjs⟩ := List.mem_filter.mp hjf
    refine ⟨hjw, hjs, ?_⟩
    intro k hk hks
    have hpw : List.Pairwise (· < ·) ((windowOf cfg table idx start).filter env.sendOk) :=
      (intRange_pairwise _ _).filter _
    exact getLast_pairwise_max hpw j hj k (List.mem_filter.mpr ⟨hk, hks⟩)
  · intro hnone k hk
    rw [List.getLast?_eq_none_iff] at hnone
    have := List.filter_eq_nil_iff.mp hnone k hk
    simpa using this

theorem c2_witness :
    send_emails_task cfgC2 envC2 = .ok runC2 ∧
    envC2.sendOk 0 = false ∧ envC2.sendOk 1 = true ∧
    runC2.counterFile = save_counter 2 := by
  refine ⟨rfl, rfl, rfl, ?_⟩
  have h := c2_cursor_last_success cfgC2 envC2
    ⟨["Email"], [[some "a@x.com"], [some "b@x.com"]]⟩ 0 0 runC2
    rfl rfl (by decide) rfl (by decide) rfl rfl
  rw [h.1]
  decide

end BulkMail
